import Mathlib

set_option maxRecDepth 10000

/-!
Shallow embedding of the three GRBL/FluidNC streaming scripts of this
repository (home.py, sender.py, sending.py) and proofs about the
command/acknowledgement protocol they implement.

Modelling conventions.  The two concurrent threads of the scripts interact
only through the reply queue, the shared machine-state variable and the
serial link.  The dispatcher-side code is embedded as deterministic
functions over an environment:

* an ack stream, giving the (already lowercased) reply delivered to the
  n-th wait on the reply queue, with none meaning the wait timed out;
* a state stream, giving the value of the shared last-state variable at
  its n-th read (the receiver may overwrite it between any two reads, so
  successive reads are independent observations).

Wall-clock deadlines of the polling loops become fuel parameters (the
number of loop iterations the deadline allows).  Every externally visible
action (serial write, control byte, status query, reply consumption,
console marker, diagnostic) is recorded in an event trace.  Numeric
formatting of the nudge move is abstracted to integers.
-/

/-- Python str.startswith on ASCII protocol lines. -/
def pyStartsWith (s pre : String) : Bool :=
  pre.toList.isPrefixOf s.toList

/-- Helper for pyIn: substring search over character lists. -/
def pyInAux (needle : List Char) : List Char → Bool
  | [] => needle.isEmpty
  | c :: t => if needle.isPrefixOf (c :: t) then true else pyInAux needle t

/-- Python substring containment, needle in hay. -/
def pyIn (needle hay : String) : Bool :=
  pyInAux needle.toList hay.toList

/-- Python str.lower restricted to the ASCII protocol alphabet. -/
def pyLower (s : String) : String :=
  String.mk (s.toList.map Char.toLower)

/-- Python str.strip. -/
def pyStrip (s : String) : String :=
  String.mk (((s.toList.dropWhile Char.isWhitespace).reverse.dropWhile Char.isWhitespace).reverse)

/-- Decimal value of a digit list. -/
def digitsVal (cs : List Char) : Nat :=
  cs.foldl (fun n c => 10 * n + (c.toNat - 48)) 0

/-- parse_alarm_code of home.py 132-140 and sender.py 118-125: the regex
ALARM_RE, alarm followed by an optional colon, optional whitespace and
digits, applied to an already lowercased ack line; returns the integer
alarm code, or none when the line does not match. -/
def parse_alarm_code (s : String) : Option Nat :=
  let cs := s.toList
  if ( "alarm".toList).isPrefixOf cs then
    let r0 := cs.drop 5
    let r1 := match r0 with
      | ':' :: t => t
      | l => l
    let r2 := r1.dropWhile Char.isWhitespace
    let ds := r2.takeWhile Char.isDigit
    if ds.isEmpty then none else some (digitsVal ds)
  else none

/-- Externally visible events of a run: serial writes, the Ctrl-X reset
byte, input-buffer flushes, status queries, reads of the shared state
variable, reply-queue consumptions (none is a timed-out wait), reply-queue
drains, console echoes, warnings and markers. -/
inductive Ev where
  | write (s : String)
  | ctrlX
  | flushIn
  | statusPoll
  | readState (s : String)
  | consume (o : Option String)
  | drainAcks
  | echo (s : String)
  | warn (s : String)
  | mark (s : String)
  deriving Repr, DecidableEq

/-- Environment of a dispatcher-side run: the reply stream and the
observed-state stream (see the module comment). -/
structure Env where
  acks : Nat → Option String
  states : Nat → String

/-- Cursor into the two environment streams. -/
structure World where
  ackIdx : Nat
  stIdx : Nat
  deriving Repr, DecidableEq

namespace Home

/-!
Embedding of home.py (its TX/ack, polling, homing and sender-loop code is
identical to sender.py up to the reset macro, which home.py lacks).
-/

/-- The attempt loop of send_gcode (home.py 117-130, sender.py 103-116).
The argument acc records the last value assigned to the Python local ack,
with none meaning the variable was never assigned.  When the fuel (the
retries bound) is exhausted the function returns False together with
ack if ack else "timeout"; if no attempt ever ran, that read of ack raises
UnboundLocalError, modelled as an error value. -/
def send_gcode_go (ε : Env) (g : String) :
    Nat → World → Option (Option String) → Except String (Bool × String) × World × List Ev
  | 0, w, none => (Except.error "UnboundLocalError", w, [])
  | 0, w, some none => (Except.ok (false, "timeout"), w, [])
  | 0, w, some (some a) => (Except.ok (false, a), w, [])
  | n+1, w, _ =>
    let a := ε.acks w.ackIdx
    let w1 : World := ⟨w.ackIdx + 1, w.stIdx⟩
    match a with
    | none =>
      let r := send_gcode_go ε g n w1 (some none)
      (r.1, r.2.1, Ev.write g :: Ev.consume none :: r.2.2)
    | some s =>
      if pyStartsWith s "ok" then
        (Except.ok (true, s), w1, [Ev.write g, Ev.consume (some s)])
      else
        let r := send_gcode_go ε g n w1 (some (some s))
        (r.1, r.2.1, Ev.write g :: Ev.consume (some s) :: r.2.2)

/-- send_gcode of home.py 117-130 (same text in sender.py 103-116):
write the line, wait for an ack, succeed on ok, retry otherwise, up to
retries total attempts. -/
def send_gcode (ε : Env) (g : String) (retries : Nat) (w : World) :
    Except String (Bool × String) × World × List Ev :=
  send_gcode_go ε g retries w none

/-- The drain loop of unlock_after_alarm: get_nowait until the queue is
empty. -/
def drain_rxq : List String → List String
  | [] => []
  | _ :: t => drain_rxq t

/-- unlock_after_alarm (home.py 142-151, sender.py 127-135) acting on an
explicit reply-queue state: write the unlock command, settle, then drain
every reply still pending in the queue. -/
def unlock_after_alarm (q : List String) : List String × List Ev :=
  (drain_rxq q, [Ev.write "$X", Ev.drainAcks])

/-- The unlock step as seen by the reply-stream model: its serial write
plus the queue drain; the queue itself is modelled by unlock_after_alarm. -/
def unlockEvs : List Ev := [Ev.write "$X", Ev.drainAcks]

/-- The polling loop of wait_until_idle (home.py 62-82, sender.py 64-76).
Each iteration reads the shared state; on Idle it sleeps, issues a fresh
status request, and re-reads the state, succeeding only if the re-read
still observes Idle; otherwise it requests status and polls again. -/
def wait_until_idle_go (ε : Env) : Nat → World → Bool × World × List Ev
  | 0, w => (false, w, [])
  | n+1, w =>
    let st := ε.states w.stIdx
    let w1 : World := ⟨w.ackIdx, w.stIdx + 1⟩
    if st = "Idle" then
      let st2 := ε.states w1.stIdx
      let w2 : World := ⟨w1.ackIdx, w1.stIdx + 1⟩
      if st2 = "Idle" then
        (true, w2, [Ev.readState st, Ev.statusPoll, Ev.readState st2])
      else
        let r := wait_until_idle_go ε n w2
        (r.1, r.2.1, Ev.readState st :: Ev.statusPoll :: Ev.readState st2 :: r.2.2)
    else
      let r := wait_until_idle_go ε n w1
      (r.1, r.2.1, Ev.readState st :: Ev.statusPoll :: r.2.2)

/-- wait_until_idle, including the status request issued before the
polling loop begins. -/
def wait_until_idle (ε : Env) (fuel : Nat) (w : World) : Bool × World × List Ev :=
  let r := wait_until_idle_go ε fuel w
  (r.1, r.2.1, Ev.statusPoll :: r.2.2)

/-- Phase 1 of wait_motion_complete (home.py 89-96): poll until a
non-Idle state is observed or the leave-idle window closes. -/
def wmc_phase1 (ε : Env) : Nat → World → World × List Ev
  | 0, w => (w, [])
  | n+1, w =>
    let st := ε.states w.stIdx
    let w1 : World := ⟨w.ackIdx, w.stIdx + 1⟩
    if st = "Idle" then
      let r := wmc_phase1 ε n w1
      (r.1, Ev.readState st :: Ev.statusPoll :: r.2)
    else (w1, [Ev.readState st])

/-- wait_motion_complete (home.py 84-98, sender.py 78-86): observe a
transition away from Idle (or give up after the leave-idle window), then
delegate to wait_until_idle. -/
def wait_motion_complete (ε : Env) (leaveFuel finishFuel : Nat) (w : World) :
    Bool × World × List Ev :=
  let p := wmc_phase1 ε leaveFuel w
  let r := wait_until_idle ε finishFuel p.1
  (r.1, r.2.1, Ev.statusPoll :: p.2 ++ r.2.2)

/-- The start-detection window inside send_homing_with_retries
(home.py 165-183): repeatedly try to take an ack (a bounded get) and poll
status; an ok ack or an observed non-Idle state means the homing started,
an alarm or error ack ends the wait unstarted.  The argument acc is the
last value assigned to the Python local ack. -/
def homing_wait_start (ε : Env) (acc : Option String) :
    Nat → World → Bool × Option String × World × List Ev
  | 0, w => (false, acc, w, [])
  | n+1, w =>
    let a := ε.acks w.ackIdx
    let w1 : World := ⟨w.ackIdx + 1, w.stIdx⟩
    match a with
    | some s =>
      if pyStartsWith s "ok" then (true, some s, w1, [Ev.consume (some s)])
      else if pyStartsWith s "alarm" || pyStartsWith s "error" then
        (false, some s, w1, [Ev.consume (some s)])
      else
        let st := ε.states w1.stIdx
        let w2 : World := ⟨w1.ackIdx, w1.stIdx + 1⟩
        if st = "Idle" then
          let r := homing_wait_start ε (some s) n w2
          (r.1, r.2.1, r.2.2.1, Ev.consume (some s) :: Ev.statusPoll :: Ev.readState st :: r.2.2.2)
        else
          (true, some s, w2, [Ev.consume (some s), Ev.statusPoll, Ev.readState st])
    | none =>
      let st := ε.states w1.stIdx
      let w2 : World := ⟨w1.ackIdx, w1.stIdx + 1⟩
      if st = "Idle" then
        let r := homing_wait_start ε acc n w2
        (r.1, r.2.1, r.2.2.1, Ev.consume none :: Ev.statusPoll :: Ev.readState st :: r.2.2.2)
      else
        (true, acc, w2, [Ev.consume none, Ev.statusPoll, Ev.readState st])

/-- True when the ack line is an alarm or error line. -/
def isAlarmErr : Option String → Bool
  | some s => pyStartsWith s "alarm" || pyStartsWith s "error"
  | none => false

/-- parse_alarm_code lifted to the optional ack. -/
def optParseAlarm : Option String → Option Nat
  | some s => parse_alarm_code s
  | none => none

/-- The try loop of send_homing_with_retries (home.py 153-209): send the
homing command, watch for an ack or a motion start; an unstarted alarm 8
or 9 unlocks and retries, any other unstarted alarm or error reply fails
at once; no observed start unlocks speculatively and retries; once
started, wait for motion completion, retrying on a completion timeout. -/
def send_homing_go (ε : Env) (cmd : String) (window leaveFuel finishFuel : Nat) :
    Nat → World → Bool × World × List Ev
  | 0, w => (false, w, [])
  | n+1, w =>
    let s0 := homing_wait_start ε none window w
    let started := s0.1
    let ack := s0.2.1
    let w1 := s0.2.2.1
    let tHead := Ev.write cmd :: s0.2.2.2
    if isAlarmErr ack && !started then
      let code := optParseAlarm ack
      if code = some 8 ∨ code = some 9 then
        let r := send_homing_go ε cmd window leaveFuel finishFuel n w1
        (r.1, r.2.1, tHead ++ unlockEvs ++ r.2.2)
      else (false, w1, tHead)
    else if !started then
      let r := send_homing_go ε cmd window leaveFuel finishFuel n w1
      (r.1, r.2.1, tHead ++ unlockEvs ++ r.2.2)
    else
      let m := wait_motion_complete ε leaveFuel finishFuel w1
      if m.1 then (true, m.2.1, tHead ++ m.2.2)
      else
        let r := send_homing_go ε cmd window leaveFuel finishFuel n m.2.1
        (r.1, r.2.1, tHead ++ m.2.2 ++ r.2.2)

/-- send_homing_with_retries (home.py 153-209). -/
def send_homing_with_retries (ε : Env) (cmd : String) (max_tries window leaveFuel finishFuel : Nat)
    (w : World) : Bool × World × List Ev :=
  send_homing_go ε cmd window leaveFuel finishFuel max_tries w

/-- One entry of the hard-coded homing macro: a homing command, an
absolute move sent through send_gcode, or a motion-completion wait. -/
inductive HomeStep where
  | homing (cmd : String)
  | move (cmd : String)
  | waitC
  deriving Repr, DecidableEq

/-- The literal step list of the homing macro _perform_home_sequence
(home.py 224-247, sender.py 161-184). -/
def home_steps : List HomeStep :=
  [HomeStep.homing "$HZ", HomeStep.waitC,
   HomeStep.move "g0 z180", HomeStep.waitC,
   HomeStep.homing "$HA", HomeStep.waitC,
   HomeStep.homing "$HY", HomeStep.waitC,
   HomeStep.move "g0 y45", HomeStep.waitC,
   HomeStep.homing "$HZ", HomeStep.waitC,
   HomeStep.homing "$HX", HomeStep.waitC,
   HomeStep.move "g0 x45 y45 z45 a45", HomeStep.waitC]

/-- Fuel parameters of the homing primitives: the start-detection window,
and the two phases of wait_motion_complete. -/
structure Fuels where
  window : Nat
  leaveFuel : Nat
  finishFuel : Nat
  deriving Repr

/-- Run one macro step (the lambdas of home.py 224-247); moves go through
send_gcode with the source default retries=1, so the unbound-ack error is
unreachable and mapped to failure. -/
def run_step (ε : Env) (r : Nat) (fu : Fuels) : HomeStep → World → Bool × World × List Ev
  | HomeStep.homing cmd, w =>
    send_homing_with_retries ε cmd r fu.window fu.leaveFuel fu.finishFuel w
  | HomeStep.move cmd, w =>
    match send_gcode ε cmd 1 w with
    | (Except.ok (b, _), w', t) => (b, w', t)
    | (Except.error _, w', t) => (false, w', t)
  | HomeStep.waitC, w => wait_motion_complete ε fu.leaveFuel fu.finishFuel w

/-- The step loop of _perform_home_sequence (home.py 248-253): run the
steps in order, aborting on the first failure; the fourth component lists
the steps that were actually entered. -/
def run_steps (ε : Env) (r : Nat) (fu : Fuels) :
    List HomeStep → World → Bool × World × List Ev × List HomeStep
  | [], w => (true, w, [], [])
  | s :: rest, w =>
    let h := run_step ε r fu s w
    if h.1 then
      let k := run_steps ε r fu rest h.2.1
      (k.1, k.2.1, h.2.2 ++ k.2.2.1, s :: k.2.2.2)
    else (false, h.2.1, h.2.2, [s])

/-- _perform_home_sequence (home.py 219-253, sender.py 156-189). -/
def perform_home_sequence (ε : Env) (homing_retries : Nat) (fu : Fuels) (w : World) :
    Bool × World × List Ev × List HomeStep :=
  run_steps ε homing_retries fu home_steps w

/-- A work-queue item of the stdin producer (home.py 214-217): the
end-of-input sentinel, the reserved home macro, or a plain command line. -/
inductive WorkItem where
  | eof
  | home
  | gcode (line : String)
  deriving Repr, DecidableEq

/-- The dispatcher loop _sender_loop (home.py 255-286) over the list of
items the producer enqueues.  The first component of the result is the
session stop flag: it is set exactly when a homing macro fails, upon which
the loop returns at once and every later item is discarded.  An exhausted
item list is modelled as loop exit (the Python loop idles there until the
stop event); a gcode item whose send raised the unbound-ack error kills
the dispatcher thread, also ending the loop. -/
def sender_loop (ε : Env) (homing_retries : Nat) (fu : Fuels) (line_retries : Nat) :
    List WorkItem → World → Bool × World × List Ev
  | [], w => (false, w, [])
  | WorkItem.eof :: _, w => (false, w, [])
  | WorkItem.home :: rest, w =>
    let h := perform_home_sequence ε homing_retries fu w
    if h.1 then
      let k := sender_loop ε homing_retries fu line_retries rest h.2.1
      (k.1, k.2.1, Ev.mark "%%HOME (begin sequence)" :: h.2.2.1 ++ Ev.mark "%%HOME (done)" :: k.2.2)
    else
      (true, h.2.1, Ev.mark "%%HOME (begin sequence)" :: h.2.2.1 ++ [Ev.warn "%%HOME (FAILED) - ABORTING"])
  | WorkItem.gcode line :: rest, w =>
    let g := send_gcode ε line line_retries w
    match g.1 with
    | Except.ok (true, _) =>
      let k := sender_loop ε homing_retries fu line_retries rest g.2.1
      (k.1, k.2.1, g.2.2 ++ k.2.2)
    | Except.ok (false, a) =>
      let k := sender_loop ε homing_retries fu line_retries rest g.2.1
      (k.1, k.2.1, g.2.2 ++ Ev.warn ("giving up on line: " ++ line ++ " (last: " ++ a ++ ")") :: k.2.2)
    | Except.error e => (false, g.2.1, g.2.2 ++ [Ev.warn e])

/-- Capacity of the bounded reply queue (home.py 11, sender.py 17). -/
def RXQ_MAXSIZE : Nat := 8192

/-- Receiver-side state: the shared machine-state label and the bounded
reply queue, oldest entry first. -/
structure RxState where
  lastState : String
  rxq : List String
  deriving Repr, DecidableEq

/-- The state-banner tracking of the receiver (home.py 33-38): a line
starting with an angle bracket updates the shared state, taking the label
before the bar separator, or the whole bracket body when the line ends
with a closing angle bracket. -/
def track_state (line : String) (cur : String) : String :=
  if pyStartsWith line "<" then
    let cs := line.toList
    if (cs.drop 1).contains '|' then
      String.mk ((cs.drop 1).takeWhile (fun c => c ≠ '|'))
    else if cs.getLast? = some '>' then
      String.mk ((cs.drop 1).dropLast)
    else cur
  else cur

/-- Processing of one received line by the receiver loop _rx_loop
(home.py 25-47, sender.py 33-52): echo the line, track the state banner,
and push reply lines, lowercased, onto the bounded reply queue; when the
queue is still full after the bounded put, the incoming reply is dropped
and a warning is printed. -/
def rx_line (st : RxState) (line : String) : RxState × List Ev :=
  let ls := track_state line st.lastState
  let lower := pyLower line
  if pyStartsWith lower "ok" || pyStartsWith lower "error" || pyStartsWith lower "alarm" then
    if st.rxq.length < RXQ_MAXSIZE then
      (⟨ls, st.rxq ++ [lower]⟩, [Ev.echo line])
    else
      (⟨ls, st.rxq⟩, [Ev.echo line, Ev.warn "RX queue full; dropping ack"])
  else (⟨ls, st.rxq⟩, [Ev.echo line])

/-- The receiver loop over a list of incoming lines. -/
def rx_loop (st : RxState) : List String → RxState × List Ev
  | [] => (st, [])
  | l :: ls =>
    let a := rx_line st l
    let b := rx_loop a.1 ls
    (b.1, a.2 ++ b.2)

end Home

namespace Sending

/-!
Embedding of sending.py, the fixed-sequence variant with hard-clear
recovery, nudge-on-homing-alarm, and file streaming.
-/

/-- wait_state (sending.py 57-64): each cycle writes the status query,
sleeps one poll period, then reads the shared state; the first read that
hits a target state is success. -/
def wait_state (ε : Env) (targets : List String) : Nat → World → Bool × World × List Ev
  | 0, w => (false, w, [])
  | n+1, w =>
    let st := ε.states w.stIdx
    let w1 : World := ⟨w.ackIdx, w.stIdx + 1⟩
    if targets.contains st then (true, w1, [Ev.statusPoll, Ev.readState st])
    else
      let r := wait_state ε targets n w1
      (r.1, r.2.1, Ev.statusPoll :: Ev.readState st :: r.2.2)

/-- hard_clear (sending.py 66-76): Ctrl-X, settle, flush the input
buffer, then the unlock command, the soft-limit disable and the absolute
mode command, each awaiting one ack, and finally a bounded wait for any
live machine state. -/
def hard_clear (ε : Env) (stFuel : Nat) (w : World) : World × List Ev :=
  let a1 := ε.acks w.ackIdx
  let w1 : World := ⟨w.ackIdx + 1, w.stIdx⟩
  let a2 := ε.acks w1.ackIdx
  let w2 : World := ⟨w1.ackIdx + 1, w1.stIdx⟩
  let a3 := ε.acks w2.ackIdx
  let w3 : World := ⟨w2.ackIdx + 1, w2.stIdx⟩
  let r := wait_state ε [ "Idle", "Run", "Hold", "Jog", "Check"] stFuel w3
  (r.2.1,
   [Ev.ctrlX, Ev.flushIn, Ev.write "$X", Ev.consume a1, Ev.write "$20=0", Ev.consume a2,
    Ev.write "G90", Ev.consume a3] ++ r.2.2)

/-- clear_alarm_if_needed (sending.py 78-82): read the shared state and,
when it is Alarm, hard-clear and wait for Idle. -/
def clear_alarm_if_needed (ε : Env) (clearFuel idleFuel : Nat) (w : World) : World × List Ev :=
  let st := ε.states w.stIdx
  let w1 : World := ⟨w.ackIdx, w.stIdx + 1⟩
  if st = "Alarm" then
    let h := hard_clear ε clearFuel w1
    let r := wait_state ε [ "Idle"] idleFuel h.1
    (r.2.1, Ev.readState st :: h.2 ++ r.2.2)
  else (w1, [Ev.readState st])

/-- nudge_axis (sending.py 101-108): switch to relative mode, issue the
small move, wait for Idle, switch back to absolute mode; the numeric
distance is carried as an integer, abstracting Python float formatting. -/
def nudge_axis (ε : Env) (ax : Char) (delta : Int) (feed : Nat) (idleFuel : Nat) (w : World) :
    World × List Ev :=
  let a1 := ε.acks w.ackIdx
  let w1 : World := ⟨w.ackIdx + 1, w.stIdx⟩
  let a2 := ε.acks w1.ackIdx
  let w2 : World := ⟨w1.ackIdx + 1, w1.stIdx⟩
  let r := wait_state ε [ "Idle"] idleFuel w2
  let a3 := ε.acks r.2.1.ackIdx
  let w4 : World := ⟨r.2.1.ackIdx + 1, r.2.1.stIdx⟩
  (w4,
   [Ev.write "G91", Ev.consume a1,
    Ev.write ("G1 " ++ String.mk [ax] ++ toString delta ++ " F" ++ toString feed),
    Ev.consume a2] ++ r.2.2 ++ [Ev.write "G90", Ev.consume a3])

/-- axis_from_home_cmd (sending.py 110-111): the final letter of a
homing command of the form dollar-H-axis, uppercased. -/
def axis_from_home_cmd (cmd : String) : Option Char :=
  if pyStartsWith cmd "$H" && cmd.toList.length ≥ 3 then
    cmd.toList.getLast?.map Char.toUpper
  else none

/-- initial_toward_sign (sending.py 113-114): the configured first nudge
direction, negative on every axis. -/
def initial_toward_sign (_ax : Char) : Int := -1

/-- Fuel parameters of the sending.py wait primitives: the live-state
wait inside hard_clear, the Idle wait after a hard clear, the Idle wait
after sending a command, and the Idle wait inside nudge_axis. -/
structure SFuels where
  clearFuel : Nat
  clearIdle : Nat
  ackIdle : Nat
  nudgeIdle : Nat
  deriving Repr

/-- The attempt loop of homing_step (sending.py 116-138); attempt is the
1-based Python attempt counter, the fuel counts the remaining attempts.
Success needs an ok ack and a confirmed Idle; an alarm ack containing
alarm:8 or alarm:9 (for a command with an axis) hard-clears, nudges the
axis with the attempt-dependent sign and retries; any other alarm, and
any other outcome, hard-clears and retries until the attempts run out. -/
def homing_step_go (ε : Env) (cmd : String) (fu : SFuels) (nudge_dist : Int) (feed : Nat) :
    Nat → Nat → World → Bool × World × List Ev
  | 0, _, w => (false, w, [])
  | n+1, attempt, w =>
    let c := clear_alarm_if_needed ε fu.clearFuel fu.clearIdle w
    let a := ε.acks c.1.ackIdx
    let w2 : World := ⟨c.1.ackIdx + 1, c.1.stIdx⟩
    let s := wait_state ε [ "Idle"] fu.ackIdle w2
    let okIdle := s.1
    let w3 := s.2.1
    let tb := c.2 ++ Ev.write cmd :: Ev.consume a :: s.2.2
    if (match a with | some l => pyStartsWith l "ok" | none => false) && okIdle then
      (true, w3, tb)
    else if (match a with | some l => pyStartsWith l "alarm" | none => false) then
      if (match a with | some l => pyIn "alarm:9" l || pyIn "alarm:8" l | none => false)
          && (axis_from_home_cmd cmd).isSome then
        let ax := (axis_from_home_cmd cmd).getD 'X'
        let sign : Int :=
          if attempt = 1 then initial_toward_sign ax
          else if attempt % 2 = 0 then 1 else -1
        let h := hard_clear ε fu.clearFuel w3
        let nd := nudge_axis ε ax (sign * nudge_dist) feed fu.nudgeIdle h.1
        let r := homing_step_go ε cmd fu nudge_dist feed n (attempt + 1) nd.1
        (r.1, r.2.1, tb ++ h.2 ++ nd.2 ++ r.2.2)
      else
        let h := hard_clear ε fu.clearFuel w3
        let r := homing_step_go ε cmd fu nudge_dist feed n (attempt + 1) h.1
        (r.1, r.2.1, tb ++ h.2 ++ r.2.2)
    else
      let h := hard_clear ε fu.clearFuel w3
      let r := homing_step_go ε cmd fu nudge_dist feed n (attempt + 1) h.1
      (r.1, r.2.1, tb ++ h.2 ++ r.2.2)

/-- homing_step (sending.py 116-138). -/
def homing_step (ε : Env) (cmd : String) (retries : Nat) (fu : SFuels)
    (nudge_dist : Int) (feed : Nat) (w : World) : Bool × World × List Ev :=
  homing_step_go ε cmd fu nudge_dist feed retries 1 w

/-- send_blocking (sending.py 84-99): per attempt, clear any alarm,
optionally force absolute mode, send the command, take one ack, wait for
Idle; the attempt fails, triggering a hard clear and a retry, when the
state is Alarm, the ack is an alarm, or Idle was not reached - otherwise
it succeeds, whatever the ack was. -/
def send_blocking (ε : Env) (cmd : String) (fu : SFuels) (force_g90 : Bool) :
    Nat → World → Bool × World × List Ev
  | 0, w => (false, w, [])
  | n+1, w =>
    let c := clear_alarm_if_needed ε fu.clearFuel fu.clearIdle w
    let g : World × List Ev :=
      if force_g90 then
        (⟨c.1.ackIdx + 1, c.1.stIdx⟩, [Ev.write "G90", Ev.consume (ε.acks c.1.ackIdx)])
      else (c.1, [])
    let a := ε.acks g.1.ackIdx
    let w3 : World := ⟨g.1.ackIdx + 1, g.1.stIdx⟩
    let s := wait_state ε [ "Idle"] fu.ackIdle w3
    let okIdle := s.1
    let stNow := ε.states s.2.1.stIdx
    let w5 : World := ⟨s.2.1.ackIdx, s.2.1.stIdx + 1⟩
    let tb := c.2 ++ g.2 ++ Ev.write cmd :: Ev.consume a :: s.2.2 ++ [Ev.readState stNow]
    if stNow = "Alarm" || (match a with | some l => pyStartsWith l "alarm" | none => false)
        || !okIdle then
      let h := hard_clear ε fu.clearFuel w5
      let r := send_blocking ε cmd fu force_g90 n h.1
      (r.1, r.2.1, tb ++ h.2 ++ r.2.2)
    else (true, w5, tb)

/-- A stripped line the streamer skips: blank, or starting with the
parenthesis or semicolon comment markers (sending.py 166-168). -/
def skipLine (raw : String) : Bool :=
  let line := pyStrip raw
  line.toList.isEmpty || pyStartsWith line "(" || pyStartsWith line ";"

/-- The first-line preview loop of stream_file (sending.py 150-157),
printing the first non-comment line. -/
def preview (lines : List String) : List Ev :=
  match lines.find? (fun l => !skipLine l) with
  | some l => [Ev.echo ("first line preview: " ++ pyStrip l)]
  | none => []

/-- The per-line attempt loop of stream_file (sending.py 169-189): clear
any alarm, send the line, take one ack; ok advances to the next line, a
timeout or a non-alarm reply clears any alarm and also advances, an alarm
hard-clears, re-asserts absolute mode and retries while attempts remain,
otherwise the whole stream aborts (first component false). -/
def line_attempts (ε : Env) (fu : SFuels) (line : String) :
    Nat → World → Bool × World × List Ev
  | 0, w => (true, w, [])
  | n+1, w =>
    let c := clear_alarm_if_needed ε fu.clearFuel fu.clearIdle w
    let a := ε.acks c.1.ackIdx
    let w2 : World := ⟨c.1.ackIdx + 1, c.1.stIdx⟩
    let tb := c.2 ++ [Ev.write line, Ev.consume a]
    match a with
    | none =>
      let d := clear_alarm_if_needed ε fu.clearFuel fu.clearIdle w2
      (true, d.1, tb ++ d.2)
    | some s =>
      if pyStartsWith s "ok" then (true, w2, tb)
      else if pyStartsWith s "alarm" then
        let h := hard_clear ε fu.clearFuel w2
        let a2 := ε.acks h.1.ackIdx
        let w4 : World := ⟨h.1.ackIdx + 1, h.1.stIdx⟩
        let tc := tb ++ h.2 ++ [Ev.write "G90", Ev.consume a2]
        if n = 0 then (false, w4, tc)
        else
          let r := line_attempts ε fu line n w4
          (r.1, r.2.1, tc ++ r.2.2)
      else
        let d := clear_alarm_if_needed ε fu.clearFuel fu.clearIdle w2
        (true, d.1, tb ++ d.2)

/-- The line loop of stream_file (sending.py 162-189): skip blank and
comment lines without any device interaction, dispatch the rest through
the attempt loop, aborting the stream when an attempt loop gives up. -/
def stream_lines (ε : Env) (fu : SFuels) (line_retries : Nat) :
    List String → World → Bool × World × List Ev
  | [], w => (true, w, [])
  | raw :: rest, w =>
    if skipLine raw then stream_lines ε fu line_retries rest w
    else
      let la := line_attempts ε fu (pyStrip raw) (line_retries + 1) w
      if la.1 then
        let r := stream_lines ε fu line_retries rest la.2.1
        (r.1, r.2.1, la.2.2 ++ r.2.2)
      else (false, la.2.1, la.2.2)

/-- stream_file (sending.py 140-191) over the list of the file's lines
(file-system access is outside the model): the start marker, the
pre-stream alarm clear and Idle wait, the first-line preview, the line
loop, and the end marker - which the code prints only on the success
path. -/
def stream_file (ε : Env) (fu : SFuels) (lines : List String) (line_retries preIdle : Nat)
    (w : World) : Bool × World × List Ev :=
  let c := clear_alarm_if_needed ε fu.clearFuel fu.clearIdle w
  let s := wait_state ε [ "Idle"] preIdle c.1
  let r := stream_lines ε fu line_retries lines s.2.1
  (r.1, r.2.1,
   Ev.mark "START STREAM" :: c.2 ++ s.2.2 ++ preview lines ++ r.2.2 ++
     (if r.1 then [Ev.mark "END STREAM"] else []))

end Sending

/-! Environments used to instantiate the theorems below. -/

/-- A device that acknowledges every wait with ok and always reports Idle. -/
def envOk : Env := ⟨fun _ => some "ok", fun _ => "Idle"⟩

/-- A device that answers every wait with the non-recoverable alarm 3 and
reports Run. -/
def envAlarm3 : Env := ⟨fun _ => some "alarm:3", fun _ => "Run"⟩

/-- A device that answers every wait with the recoverable alarm 8 and
reports Run. -/
def envAlarm8 : Env := ⟨fun _ => some "alarm:8", fun _ => "Run"⟩

/-- A device that never replies but always reports Idle. -/
def envIdleSilent : Env := ⟨fun _ => none, fun _ => "Idle"⟩

/-- A device observed Idle exactly once, transitioning away before any
further observation. -/
def envStale : Env := ⟨fun _ => none, fun n => if n = 0 then "Idle" else "Run"⟩

/-- True when the n-th reply of the stream is an ok line. -/
def okAt (ε : Env) (i : Nat) : Bool :=
  match ε.acks i with
  | some s => pyStartsWith s "ok"
  | none => false

/-- The string send_gcode reports when all attempts failed: the last ack,
or the word timeout when the last attempt got no reply. -/
def lastOutcome : Option String → String
  | none => "timeout"
  | some s => s

/-- Serial-protocol events of the dispatcher: command writes and reply
consumptions. -/
def isWC : Ev → Bool
  | Ev.write _ => true
  | Ev.consume _ => true
  | _ => false

/-- The strict write-then-consume alternation: a list of write and
consume pairs, one reply consumed for each write before the next write. -/
def wcPairs (ps : List (String × Option String)) : List Ev :=
  (ps.map fun p => [Ev.write p.1, Ev.consume p.2]).flatten

/-- Console markers. -/
def isMarkEv : Ev → Bool
  | Ev.mark _ => true
  | _ => false

/-- Console echoes of received lines. -/
def isEchoEv : Ev → Bool
  | Ev.echo _ => true
  | _ => false

/-! Claim C9: the unlock step leaves the reply queue empty. -/

theorem drain_rxq_eq_nil (q : List String) : Home.drain_rxq q = [] := by
  induction q with
  | nil => rfl
  | cons h t ih => simpa [Home.drain_rxq] using ih

/-- C9: when unlock_after_alarm returns, the ack channel is empty - for
every channel state at the time of the call the drain loop removes all
pending replies, and the step writes exactly the unlock command, so no
reply produced before the recovery can be delivered as the ack of a
command sent after it. -/
theorem C9_unlock_drains_ack_queue (q : List String) :
    (Home.unlock_after_alarm q).1 = [] ∧
    (Home.unlock_after_alarm q).2 = [Ev.write "$X", Ev.drainAcks] := by
  exact ⟨drain_rxq_eq_nil q, rfl⟩

/-! Claim C10: send_gcode is well defined exactly when retries is at
least one; with zero retries the Python local ack is read unassigned. -/

theorem send_gcode_go_isOk (ε : Env) (g : String) :
    ∀ n w a, ((Home.send_gcode_go ε g n w (some a)).1).isOk = true := by
  intro n
  induction n with
  | zero =>
    intro w a
    cases a with
    | none => rfl
    | some s => rfl
  | succ m ih =>
    intro w a
    cases hA : ε.acks w.ackIdx with
    | none => simpa [Home.send_gcode_go, hA] using ih _ _
    | some s =>
      by_cases hs : pyStartsWith s "ok" = true
      · simp [Home.send_gcode_go, hA, hs, Except.isOk, Except.toBool]
      · simpa [Home.send_gcode_go, hA, hs] using ih _ _

/-- C10: send_gcode returns a well-defined outcome exactly when the
retries bound is at least one; with retries zero the attempt loop never
runs and the final read of the reply variable raises instead of
returning a timeout outcome. -/
theorem C10_send_gcode_zero_retries (ε : Env) (g : String) (r : Nat) (w : World) :
    (((Home.send_gcode ε g r w).1).isOk = true ↔ 1 ≤ r) ∧
    (Home.send_gcode ε g 0 w).1 = Except.error "UnboundLocalError" := by
  refine ⟨⟨fun h => ?_, fun h => ?_⟩, rfl⟩
  · by_contra hr
    have hr0 : r = 0 := by omega
    subst hr0
    simp [Home.send_gcode, Home.send_gcode_go, Except.isOk, Except.toBool] at h
  · obtain ⟨m, rfl⟩ : ∃ m, r = m + 1 := ⟨r - 1, by omega⟩
    cases hA : ε.acks w.ackIdx with
    | none =>
      simpa [Home.send_gcode, Home.send_gcode_go, hA] using send_gcode_go_isOk ε g m _ _
    | some s =>
      by_cases hs : pyStartsWith s "ok" = true
      · simp [Home.send_gcode, Home.send_gcode_go, hA, hs, Except.isOk, Except.toBool]
      · simpa [Home.send_gcode, Home.send_gcode_go, hA, hs] using send_gcode_go_isOk ε g m _ _

/-! Claim C2: double confirmation of Idle. -/

theorem wait_until_idle_go_suffix (ε : Env) :
    ∀ fuel w, (Home.wait_until_idle_go ε fuel w).1 = true →
      ∃ pre, (Home.wait_until_idle_go ε fuel w).2.2 =
        pre ++ [Ev.readState "Idle", Ev.statusPoll, Ev.readState "Idle"] := by
  intro fuel
  induction fuel with
  | zero => intro w h; simp [Home.wait_until_idle_go] at h
  | succ n ih =>
    intro w h
    by_cases h1 : ε.states w.stIdx = "Idle"
    · by_cases h2 : ε.states (w.stIdx + 1) = "Idle"
      · refine ⟨[], ?_⟩
        simp [Home.wait_until_idle_go, h1, h2]
      · rw [Home.wait_until_idle_go] at h ⊢
        simp only [h1, if_true, h2, if_false, if_neg h2] at h ⊢
        obtain ⟨pre, hp⟩ := ih _ h
        exact ⟨Ev.readState "Idle" :: Ev.statusPoll :: Ev.readState (ε.states (w.stIdx + 1)) :: pre,
          by simp [hp]⟩
    · rw [Home.wait_until_idle_go] at h ⊢
      simp only [h1, if_false, if_neg h1] at h ⊢
      obtain ⟨pre, hp⟩ := ih _ h
      exact ⟨Ev.readState (ε.states w.stIdx) :: Ev.statusPoll :: pre, by simp [hp]⟩

theorem wait_until_idle_go_stale :
    ∀ fuel a k, 1 ≤ k → (Home.wait_until_idle_go envStale fuel ⟨a, k⟩).1 = false := by
  intro fuel
  induction fuel with
  | zero => intro a k _; rfl
  | succ n ih =>
    intro a k hk
    have hk0 : ¬ k = 0 := by omega
    have hs : envStale.states k = "Run" := by simp [envStale, hk0]
    have hne : ¬ envStale.states k = "Idle" := by simp [hs]
    simp only [Home.wait_until_idle_go, hne, if_false]
    simpa using ih a (k + 1) (by omega)

/-- C2 (amended): the wait_until_idle of home.py and sender.py declares
success only after two separate observations of Idle with a fresh status
request issued between them - in particular it fails when Idle is
observed once and the device then leaves Idle; the wait_state of
sending.py, by contrast, declares success on the very first observation
of a target state. -/
theorem C2_idle_confirmation :
    (∀ (ε : Env) fuel w, (Home.wait_until_idle ε fuel w).1 = true →
      ∃ pre, (Home.wait_until_idle ε fuel w).2.2 =
        pre ++ [Ev.readState "Idle", Ev.statusPoll, Ev.readState "Idle"]) ∧
    (∀ fuel a, (Home.wait_until_idle envStale fuel ⟨a, 0⟩).1 = false) ∧
    (∀ (ε : Env) (targets : List String) fuel w,
      targets.contains (ε.states w.stIdx) = true → 1 ≤ fuel →
      Sending.wait_state ε targets fuel w =
        (true, ⟨w.ackIdx, w.stIdx + 1⟩, [Ev.statusPoll, Ev.readState (ε.states w.stIdx)])) := by
  refine ⟨fun ε fuel w h => ?_, fun fuel a => ?_, fun ε targets fuel w ht hf => ?_⟩
  · obtain ⟨pre, hp⟩ := wait_until_idle_go_suffix ε fuel w (by
      simpa [Home.wait_until_idle] using h)
    exact ⟨Ev.statusPoll :: pre, by simp [Home.wait_until_idle, hp]⟩
  · cases fuel with
    | zero => rfl
    | succ n =>
      have h0 : envStale.states 0 = "Idle" := rfl
      have h1 : envStale.states 1 = "Run" := rfl
      simp only [Home.wait_until_idle, Home.wait_until_idle_go, h0, h1]
      simpa using wait_until_idle_go_stale n a 2 (by omega)
  · obtain ⟨m, rfl⟩ : ∃ m, fuel = m + 1 := ⟨fuel - 1, by omega⟩
    simp only [Sending.wait_state, ht]
    simp [ht]

/-- C2 witness: the double-confirmation suffix at a concrete always-Idle
run, and the single-observation success of wait_state at the same
device. -/
theorem C2_idle_confirmation_witness :
    (∃ pre, (Home.wait_until_idle envOk 1 ⟨0, 0⟩).2.2 =
      pre ++ [Ev.readState "Idle", Ev.statusPoll, Ev.readState "Idle"]) ∧
    Sending.wait_state envOk [ "Idle"] 1 ⟨0, 0⟩ =
      (true, ⟨0, 1⟩, [Ev.statusPoll, Ev.readState "Idle"]) := by
  constructor
  · exact C2_idle_confirmation.1 envOk 1 ⟨0, 0⟩ (by decide)
  · exact C2_idle_confirmation.2.2 envOk [ "Idle"] 1 ⟨0, 0⟩ (by decide) (by decide)

/-- C2 counterexample: the cited wait_state of sending.py declares
success after a single observation of Idle - the device leaves Idle
right after that one observation, yet the wait still reports success,
against the two-observation protocol the claim states. -/
theorem C2_counterexample :
    Sending.wait_state envStale [ "Idle"] 1 ⟨0, 0⟩ =
      (true, ⟨0, 1⟩, [Ev.statusPoll, Ev.readState "Idle"]) ∧
    envStale.states 1 = "Run" := by
  exact ⟨by decide, rfl⟩

/-! Claim C6: receiver overflow policy and forward progress. -/

/-- A full reply queue, used to exercise the overflow branch. -/
def fullQueue : List String := List.replicate Home.RXQ_MAXSIZE "ok"

theorem rx_line_echoes (st : Home.RxState) (l : String) :
    ((Home.rx_line st l).2).filter isEchoEv = [Ev.echo l] := by
  by_cases h1 : (pyStartsWith (pyLower l) "ok" || pyStartsWith (pyLower l) "error" ||
      pyStartsWith (pyLower l) "alarm") = true
  · by_cases h2 : st.rxq.length < Home.RXQ_MAXSIZE
    · simp [Home.rx_line, h1, h2, isEchoEv]
    · simp [Home.rx_line, h1, h2, isEchoEv]
  · simp [Home.rx_line, h1, isEchoEv]

theorem rx_loop_echoes :
    ∀ (lines : List String) (st : Home.RxState),
      (((Home.rx_loop st lines).2).filter isEchoEv).length = lines.length := by
  intro lines
  induction lines with
  | nil => intro st; rfl
  | cons l ls ih =>
    intro st
    simp [Home.rx_loop, List.filter_append, rx_line_echoes, ih]

/-- C6 counterexample: with the reply queue full, a classified reply is
dropped on the floor with a warning while every pending reply stays in
the queue - the incoming (newest) reply is discarded, not the
oldest-pending-delivery one as the claim states. -/
theorem C6_counterexample :
    (Home.rx_line ⟨ "Unknown", fullQueue⟩ "error:1").1.rxq = fullQueue ∧
    Ev.warn "RX queue full; dropping ack" ∈ (Home.rx_line ⟨ "Unknown", fullQueue⟩ "error:1").2 ∧
    ¬ "error:1" ∈ (Home.rx_line ⟨ "Unknown", fullQueue⟩ "error:1").1.rxq := by
  have hcls : (pyStartsWith (pyLower "error:1") "ok" || pyStartsWith (pyLower "error:1") "error" ||
      pyStartsWith (pyLower "error:1") "alarm") = true := by decide
  have hfull : ¬ (fullQueue.length < Home.RXQ_MAXSIZE) := by
    simp [fullQueue]
  have hres : (Home.rx_line ⟨ "Unknown", fullQueue⟩ "error:1").1.rxq = fullQueue := by
    simp [Home.rx_line, hcls, hfull]
  refine ⟨hres, ?_, ?_⟩
  · simp [Home.rx_line, hcls, hfull]
  · rw [hres]
    intro hmem
    exact absurd (List.eq_of_mem_replicate
      (show "error:1" ∈ List.replicate Home.RXQ_MAXSIZE "ok" from hmem)) (by decide)

/-- C6 (amended): a classified reply pushed onto a full ack channel is
itself dropped, with a warning, leaving the pending replies in place
(the newest reply is discarded, not the oldest); a push onto a non-full
channel appends the lowercased reply; and the receiver loop processes
every incoming line - one echo per line - whatever flood of replies and
overflows occurs, so forward progress is preserved. -/
theorem C6_rx_policy :
    (∀ (st : Home.RxState) (line : String),
      (pyStartsWith (pyLower line) "ok" || pyStartsWith (pyLower line) "error" ||
        pyStartsWith (pyLower line) "alarm") = true →
      Home.RXQ_MAXSIZE ≤ st.rxq.length →
      Home.rx_line st line =
        (⟨Home.track_state line st.lastState, st.rxq⟩,
         [Ev.echo line, Ev.warn "RX queue full; dropping ack"])) ∧
    (∀ (st : Home.RxState) (line : String),
      (pyStartsWith (pyLower line) "ok" || pyStartsWith (pyLower line) "error" ||
        pyStartsWith (pyLower line) "alarm") = true →
      st.rxq.length < Home.RXQ_MAXSIZE →
      Home.rx_line st line =
        (⟨Home.track_state line st.lastState, st.rxq ++ [pyLower line]⟩, [Ev.echo line])) ∧
    (∀ (st : Home.RxState) (lines : List String),
      (((Home.rx_loop st lines).2).filter isEchoEv).length = lines.length) := by
  refine ⟨fun st line h1 h2 => ?_, fun st line h1 h2 => ?_, fun st lines => ?_⟩
  · simp [Home.rx_line, h1, Nat.not_lt.mpr h2]
  · simp [Home.rx_line, h1, h2]
  · exact rx_loop_echoes lines st

/-- C6 witness: the overflow branch at a concrete full queue, the append
branch at an empty queue (with lowercasing), and forward progress over a
concrete flood. -/
theorem C6_rx_policy_witness :
    Home.rx_line ⟨ "Unknown", List.replicate Home.RXQ_MAXSIZE "alarm:1"⟩ "ok" =
      (⟨ "Unknown", List.replicate Home.RXQ_MAXSIZE "alarm:1"⟩,
       [Ev.echo "ok", Ev.warn "RX queue full; dropping ack"]) ∧
    Home.rx_line ⟨ "Unknown", []⟩ "OK" = (⟨ "Unknown", [ "ok"]⟩, [Ev.echo "OK"]) := by
  constructor
  · exact C6_rx_policy.1 ⟨ "Unknown", List.replicate Home.RXQ_MAXSIZE "alarm:1"⟩ "ok"
      (by decide) (by simp)
  · exact C6_rx_policy.2.1 ⟨ "Unknown", []⟩ "OK" (by decide) (by decide)

/-! Claim C4: the fixed homing macro and its abort policy. -/

theorem run_steps_take (ε : Env) (r : Nat) (fu : Home.Fuels) :
    ∀ (steps : List Home.HomeStep) (w : World),
      (∃ n, (Home.run_steps ε r fu steps w).2.2.2 = steps.take n) ∧
      ((Home.run_steps ε r fu steps w).1 = true →
        (Home.run_steps ε r fu steps w).2.2.2 = steps) := by
  intro steps
  induction steps with
  | nil => intro w; exact ⟨⟨0, rfl⟩, fun _ => rfl⟩
  | cons s rest ih =>
    intro w
    by_cases hs : (Home.run_step ε r fu s w).1 = true
    · obtain ⟨⟨n, hn⟩, hsucc⟩ := ih (Home.run_step ε r fu s w).2.1
      constructor
      · exact ⟨n + 1, by simp [Home.run_steps, hs, hn]⟩
      · intro hb
        have hrest : (Home.run_steps ε r fu rest (Home.run_step ε r fu s w).2.1).1 = true := by
          simpa [Home.run_steps, hs] using hb
        simp [Home.run_steps, hs, hsucc hrest]
    · constructor
      · exact ⟨1, by simp [Home.run_steps, hs]⟩
      · intro hb
        exfalso
        simp [Home.run_steps, hs] at hb

/-- C4: the homing macro is the literal fixed step list - home Z, move
to the staging Z height, home A, home Y, move on Y, home Z again,
home X, move to the four-axis pose, with a motion-completion wait after
every homing and move step - the steps entered always form a prefix of
that list in order, and a successful run entered exactly all of them;
a failed step leaves every later step unexecuted. -/
theorem C4_home_sequence (ε : Env) (r : Nat) (fu : Home.Fuels) (w : World) :
    Home.home_steps =
      [Home.HomeStep.homing "$HZ", Home.HomeStep.waitC,
       Home.HomeStep.move "g0 z180", Home.HomeStep.waitC,
       Home.HomeStep.homing "$HA", Home.HomeStep.waitC,
       Home.HomeStep.homing "$HY", Home.HomeStep.waitC,
       Home.HomeStep.move "g0 y45", Home.HomeStep.waitC,
       Home.HomeStep.homing "$HZ", Home.HomeStep.waitC,
       Home.HomeStep.homing "$HX", Home.HomeStep.waitC,
       Home.HomeStep.move "g0 x45 y45 z45 a45", Home.HomeStep.waitC] ∧
    (∃ n, (Home.perform_home_sequence ε r fu w).2.2.2 = Home.home_steps.take n) ∧
    ((Home.perform_home_sequence ε r fu w).1 = true →
      (Home.perform_home_sequence ε r fu w).2.2.2 = Home.home_steps) := by
  exact ⟨rfl, (run_steps_take ε r fu Home.home_steps w).1,
    (run_steps_take ε r fu Home.home_steps w).2⟩

/-- C4 witness: a device acknowledging everything and settling to Idle
runs the macro to success, entering exactly the fixed step list. -/
theorem C4_home_sequence_witness :
    (Home.perform_home_sequence envOk 1 ⟨1, 1, 1⟩ ⟨0, 0⟩).2.2.2 = Home.home_steps := by
  exact (C4_home_sequence envOk 1 ⟨1, 1, 1⟩ ⟨0, 0⟩).2.2 (by decide)

/-! Claim C5: the command/ack primitive send_gcode, against the
send_blocking of sending.py. -/

/-- A consumed ok reply. -/
def isOkConsume : Ev → Bool
  | Ev.consume (some s) => pyStartsWith s "ok"
  | _ => false

theorem exists_okAt_shift (P : Nat → Bool) (n k : Nat) (h : P k = false) :
    (∃ i, i < n + 1 ∧ P (k + i) = true) ↔ (∃ i, i < n ∧ P (k + 1 + i) = true) := by
  constructor
  · rintro ⟨i, hi, hp⟩
    cases i with
    | zero =>
      rw [Nat.add_zero] at hp
      rw [h] at hp
      cases hp
    | succ j =>
      refine ⟨j, by omega, ?_⟩
      rw [show k + 1 + j = k + (j + 1) from by omega]
      exact hp
  · rintro ⟨i, hi, hp⟩
    refine ⟨i + 1, by omega, ?_⟩
    rw [show k + (i + 1) = k + 1 + i from by omega]
    exact hp

theorem send_gcode_go_ok_iff (ε : Env) (g : String) :
    ∀ (n : Nat) (w : World) (acc : Option (Option String)),
      (∃ a, (Home.send_gcode_go ε g n w acc).1 = Except.ok (true, a)) ↔
      (∃ i, i < n ∧ okAt ε (w.ackIdx + i) = true) := by
  intro n
  induction n with
  | zero =>
    intro w acc
    constructor
    · rintro ⟨a, ha⟩
      cases acc with
      | none => simp [Home.send_gcode_go] at ha
      | some o =>
        cases o with
        | none => simp [Home.send_gcode_go] at ha
        | some s => simp [Home.send_gcode_go] at ha
    · rintro ⟨i, hi, _⟩
      exact absurd hi (by omega)
  | succ m ih =>
    intro w acc
    cases hA : ε.acks w.ackIdx with
    | none =>
      have h0 : okAt ε w.ackIdx = false := by simp [okAt, hA]
      have hred : (Home.send_gcode_go ε g (m + 1) w acc).1 =
          (Home.send_gcode_go ε g m ⟨w.ackIdx + 1, w.stIdx⟩ (some none)).1 := by
        simp [Home.send_gcode_go, hA]
      rw [hred, ih ⟨w.ackIdx + 1, w.stIdx⟩ (some none)]
      exact (exists_okAt_shift (okAt ε) m w.ackIdx h0).symm
    | some s =>
      by_cases hs : pyStartsWith s "ok" = true
      · have hres : (Home.send_gcode_go ε g (m + 1) w acc).1 = Except.ok (true, s) := by
          simp [Home.send_gcode_go, hA, hs]
        refine iff_of_true ⟨s, hres⟩ ⟨0, by omega, ?_⟩
        simp [okAt, hA, hs]
      · have h0 : okAt ε w.ackIdx = false := by
          simp [okAt, hA]
          simpa using hs
        have hred : (Home.send_gcode_go ε g (m + 1) w acc).1 =
            (Home.send_gcode_go ε g m ⟨w.ackIdx + 1, w.stIdx⟩ (some (some s))).1 := by
          simp [Home.send_gcode_go, hA, hs]
        rw [hred, ih ⟨w.ackIdx + 1, w.stIdx⟩ (some (some s))]
        exact (exists_okAt_shift (okAt ε) m w.ackIdx h0).symm

theorem send_gcode_go_pure (ε : Env) (g : String) :
    ∀ (n : Nat) (w : World) (acc : Option (Option String)) (e : Ev),
      e ∈ (Home.send_gcode_go ε g n w acc).2.2 →
      e = Ev.write g ∨ ∃ o, e = Ev.consume o := by
  intro n
  induction n with
  | zero =>
    intro w acc e he
    cases acc with
    | none => simp [Home.send_gcode_go] at he
    | some o =>
      cases o with
      | none => simp [Home.send_gcode_go] at he
      | some s => simp [Home.send_gcode_go] at he
  | succ m ih =>
    intro w acc e he
    cases hA : ε.acks w.ackIdx with
    | none =>
      simp only [Home.send_gcode_go, hA, List.mem_cons] at he
      rcases he with rfl | rfl | he
      · exact Or.inl rfl
      · exact Or.inr ⟨none, rfl⟩
      · exact ih _ _ _ he
    | some s =>
      by_cases hs : pyStartsWith s "ok" = true
      · simp only [Home.send_gcode_go, hA, hs, if_true, List.mem_cons] at he
        rcases he with rfl | rfl | he
        · exact Or.inl rfl
        · exact Or.inr ⟨some s, rfl⟩
        · simp at he
      · simp only [Home.send_gcode_go, hA, hs, if_false, Bool.false_eq_true, List.mem_cons] at he
        rcases he with rfl | rfl | he
        · exact Or.inl rfl
        · exact Or.inr ⟨some s, rfl⟩
        · exact ih _ _ _ he

theorem send_gcode_go_writes_le (ε : Env) (g : String) :
    ∀ (n : Nat) (w : World) (acc : Option (Option String)),
      ((Home.send_gcode_go ε g n w acc).2.2).count (Ev.write g) ≤ n := by
  intro n
  induction n with
  | zero =>
    intro w acc
    cases acc with
    | none => simp [Home.send_gcode_go]
    | some o =>
      cases o with
      | none => simp [Home.send_gcode_go]
      | some s => simp [Home.send_gcode_go]
  | succ m ih =>
    intro w acc
    cases hA : ε.acks w.ackIdx with
    | none =>
      have := ih ⟨w.ackIdx + 1, w.stIdx⟩ (some none)
      simp only [Home.send_gcode_go, hA]
      simp [List.count_cons]
      omega
    | some s =>
      by_cases hs : pyStartsWith s "ok" = true
      · simp only [Home.send_gcode_go, hA, hs, if_true]
        simp [List.count_cons]
      · have := ih ⟨w.ackIdx + 1, w.stIdx⟩ (some (some s))
        simp only [Home.send_gcode_go, hA, hs, if_false, Bool.false_eq_true]
        simp [List.count_cons]
        omega

theorem send_gcode_go_all_fail (ε : Env) (g : String) :
    ∀ (n : Nat) (w : World) (acc : Option (Option String)),
      (∀ i, i ≤ n → okAt ε (w.ackIdx + i) = false) →
      (Home.send_gcode_go ε g (n + 1) w acc).1 =
        Except.ok (false, lastOutcome (ε.acks (w.ackIdx + n))) := by
  intro n
  induction n with
  | zero =>
    intro w acc hall
    have h0 := hall 0 (by omega)
    cases hA : ε.acks w.ackIdx with
    | none => simp [Home.send_gcode_go, hA, lastOutcome]
    | some s =>
      have hs : pyStartsWith s "ok" = false := by
        have := h0
        rw [Nat.add_zero] at this
        simpa [okAt, hA] using this
      simp [Home.send_gcode_go, hA, hs, lastOutcome]
  | succ m ih =>
    intro w acc hall
    have h0 := hall 0 (by omega)
    rw [Nat.add_zero] at h0
    have hshift : ∀ i, i ≤ m → okAt ε (w.ackIdx + 1 + i) = false := by
      intro i hi
      have := hall (i + 1) (by omega)
      rw [show w.ackIdx + (i + 1) = w.ackIdx + 1 + i from by omega] at this
      exact this
    have hidx : w.ackIdx + (m + 1) = w.ackIdx + 1 + m := by omega
    cases hA : ε.acks w.ackIdx with
    | none =>
      have := ih ⟨w.ackIdx + 1, w.stIdx⟩ (some none) hshift
      rw [hidx]
      simpa [Home.send_gcode_go, hA] using this
    | some s =>
      have hs : pyStartsWith s "ok" = false := by simpa [okAt, hA] using h0
      have := ih ⟨w.ackIdx + 1, w.stIdx⟩ (some (some s)) hshift
      rw [hidx]
      simpa [Home.send_gcode_go, hA, hs] using this

theorem send_blocking_silent_idle (cmd : String) (cf ci k ni m : Nat) (w : World) :
    (Sending.send_blocking envIdleSilent cmd ⟨cf, ci, k + 1, ni⟩ false (m + 1) w).1 = true := by
  simp [Sending.send_blocking, Sending.clear_alarm_if_needed, Sending.wait_state, envIdleSilent]

/-- C5 (amended): send_gcode of home.py and sender.py is the claimed
primitive - it succeeds exactly when some attempt within the retries
bound consumes an ok reply, its trace contains nothing but writes of the
command and reply consumptions (no unlock, no reset, no recovery), it
writes at most retries times, and when every attempt fails it returns
failure with the last reply or the timeout outcome; the send_blocking of
sending.py, by contrast, reports success whenever Idle is reached even
with no reply at all. -/
theorem C5_send_primitive (ε : Env) (g : String) (r : Nat) (w : World) :
    ((∃ a, (Home.send_gcode ε g r w).1 = Except.ok (true, a)) ↔
      (∃ i, i < r ∧ okAt ε (w.ackIdx + i) = true)) ∧
    (∀ e ∈ (Home.send_gcode ε g r w).2.2, e = Ev.write g ∨ ∃ o, e = Ev.consume o) ∧
    ((Home.send_gcode ε g r w).2.2).count (Ev.write g) ≤ r ∧
    (∀ n, r = n + 1 → (∀ i, i ≤ n → okAt ε (w.ackIdx + i) = false) →
      (Home.send_gcode ε g r w).1 = Except.ok (false, lastOutcome (ε.acks (w.ackIdx + n)))) ∧
    (∀ (cmd : String) (cf ci k ni m : Nat) (w' : World),
      (Sending.send_blocking envIdleSilent cmd ⟨cf, ci, k + 1, ni⟩ false (m + 1) w').1 = true) := by
  refine ⟨send_gcode_go_ok_iff ε g r w none,
    fun e he => send_gcode_go_pure ε g r w none e he,
    send_gcode_go_writes_le ε g r w none,
    fun n hn hall => ?_,
    fun cmd cf ci k ni m w' => send_blocking_silent_idle cmd cf ci k ni m w'⟩
  subst hn
  exact send_gcode_go_all_fail ε g n w none hall

/-- C5 witness: success through an ok reply, the all-fail outcome on a
persistent alarm, and the silent-Idle success of send_blocking, at
concrete inputs. -/
theorem C5_send_primitive_witness :
    (∃ a, (Home.send_gcode envOk "g0 x1" 1 ⟨0, 0⟩).1 = Except.ok (true, a)) ∧
    (Home.send_gcode envAlarm3 "g0 x1" 1 ⟨0, 0⟩).1 =
      Except.ok (false, lastOutcome (envAlarm3.acks 0)) ∧
    (Sending.send_blocking envIdleSilent "G0 Z180" ⟨1, 1, 1, 1⟩ false 1 ⟨0, 0⟩).1 = true := by
  refine ⟨?_, ?_, ?_⟩
  · exact (C5_send_primitive envOk "g0 x1" 1 ⟨0, 0⟩).1.mpr ⟨0, by omega, by decide⟩
  · exact (C5_send_primitive envAlarm3 "g0 x1" 1 ⟨0, 0⟩).2.2.2.1 0 rfl
      (fun i hi => by
        have h0 : i = 0 := by omega
        subst h0
        decide)
  · exact (C5_send_primitive envOk "x" 0 ⟨0, 0⟩).2.2.2.2 "G0 Z180" 1 1 0 1 0 ⟨0, 0⟩

/-- C5 counterexample: the cited send_blocking of sending.py reports
success on a run in which no ok reply is ever consumed (the device never
replies and merely sits Idle), and on an alarm run it invokes the
hard-clear recovery (the reset byte appears in its trace) - against the
claim that the primitive succeeds only on an Ok reply and never invokes
recovery. -/
theorem C5_counterexample :
    (Sending.send_blocking envIdleSilent "G0 Y45" ⟨1, 1, 1, 1⟩ false 1 ⟨0, 0⟩).1 = true ∧
    ((Sending.send_blocking envIdleSilent "G0 Y45" ⟨1, 1, 1, 1⟩ false 1 ⟨0, 0⟩).2.2).filter
      isOkConsume = [] ∧
    Ev.ctrlX ∈ (Sending.send_blocking envAlarm3 "G0 Z180" ⟨1, 1, 1, 1⟩ false 2 ⟨0, 0⟩).2.2 := by
  refine ⟨by decide, by decide, by decide⟩

/-! Claim C1: dispatch order and the one-in-flight discipline. -/

theorem wcPairs_append (a b : List (String × Option String)) :
    wcPairs (a ++ b) = wcPairs a ++ wcPairs b := by
  simp [wcPairs]

theorem filter_isWC_wcPairs (ps : List (String × Option String)) :
    (wcPairs ps).filter isWC = wcPairs ps := by
  induction ps with
  | nil => rfl
  | cons p t ih => simp [wcPairs, isWC, List.filter_append] at ih ⊢; simpa [wcPairs] using ih

theorem send_gcode_go_wc (ε : Env) (g : String) :
    ∀ (n : Nat) (w : World) (acc : Option (Option String)),
      ∃ ps, (Home.send_gcode_go ε g n w acc).2.2 = wcPairs ps := by
  intro n
  induction n with
  | zero =>
    intro w acc
    refine ⟨[], ?_⟩
    cases acc with
    | none => rfl
    | some o => cases o with
      | none => rfl
      | some s => rfl
  | succ m ih =>
    intro w acc
    cases hA : ε.acks w.ackIdx with
    | none =>
      obtain ⟨ps, hp⟩ := ih ⟨w.ackIdx + 1, w.stIdx⟩ (some none)
      refine ⟨(g, none) :: ps, ?_⟩
      simp [Home.send_gcode_go, hA, wcPairs, hp]
    | some s =>
      by_cases hs : pyStartsWith s "ok" = true
      · exact ⟨[(g, some s)], by simp [Home.send_gcode_go, hA, hs, wcPairs]⟩
      · obtain ⟨ps, hp⟩ := ih ⟨w.ackIdx + 1, w.stIdx⟩ (some (some s))
        refine ⟨(g, some s) :: ps, ?_⟩
        simp [Home.send_gcode_go, hA, hs, wcPairs, hp]

theorem sender_loop_gcode_wc (ε : Env) (hr : Nat) (fu : Home.Fuels) (lr : Nat) :
    ∀ (cmds : List String) (w : World),
      ∃ ps, ((Home.sender_loop ε hr fu lr (cmds.map Home.WorkItem.gcode) w).2.2).filter isWC =
        wcPairs ps := by
  intro cmds
  induction cmds with
  | nil => intro w; exact ⟨[], rfl⟩
  | cons c rest ih =>
    intro w
    obtain ⟨ps1, hp1⟩ := send_gcode_go_wc ε c lr w none
    rcases hg : (Home.send_gcode ε c lr w).1 with e | bp
    · refine ⟨ps1, ?_⟩
      simp only [List.map_cons, Home.sender_loop, hg]
      simp [List.filter_append, isWC]
      rw [show (Home.send_gcode ε c lr w).2.2 = wcPairs ps1 from hp1]
      exact filter_isWC_wcPairs ps1
    · obtain ⟨b, a⟩ := bp
      obtain ⟨ps2, hp2⟩ := ih (Home.send_gcode ε c lr w).2.1
      cases b with
      | true =>
        refine ⟨ps1 ++ ps2, ?_⟩
        simp only [List.map_cons, Home.sender_loop, hg]
        simp only [List.filter_append]
        rw [show (Home.send_gcode ε c lr w).2.2 = wcPairs ps1 from hp1,
          filter_isWC_wcPairs ps1, wcPairs_append]
        rw [hp2]
      | false =>
        refine ⟨ps1 ++ ps2, ?_⟩
        simp only [List.map_cons, Home.sender_loop, hg]
        simp only [List.filter_append, List.filter_cons]
        rw [show (Home.send_gcode ε c lr w).2.2 = wcPairs ps1 from hp1,
          filter_isWC_wcPairs ps1, wcPairs_append]
        simp [isWC, hp2]

theorem send_gcode_envOk (g : String) (m : Nat) (w : World) :
    Home.send_gcode envOk g (m + 1) w =
      (Except.ok (true, "ok"), ⟨w.ackIdx + 1, w.stIdx⟩, [Ev.write g, Ev.consume (some "ok")]) := by
  have hok : pyStartsWith "ok" "ok" = true := by decide
  simp [Home.send_gcode, Home.send_gcode_go, envOk, hok]

theorem sender_loop_envOk (hr : Nat) (fu : Home.Fuels) (m : Nat) :
    ∀ (cmds : List String) (w : World),
      Home.sender_loop envOk hr fu (m + 1) (cmds.map Home.WorkItem.gcode) w =
        (false, ⟨w.ackIdx + cmds.length, w.stIdx⟩,
          wcPairs (cmds.map fun c => (c, some "ok"))) := by
  intro cmds
  induction cmds with
  | nil => intro w; rfl
  | cons c rest ih =>
    intro w
    simp only [List.map_cons, Home.sender_loop, send_gcode_envOk c m w,
      ih ⟨w.ackIdx + 1, w.stIdx⟩]
    simp [wcPairs]
    omega

/-- C1: with a device acknowledging every command, the dispatcher writes
the enqueued commands in exactly their queue order, consuming the reply
to each write before issuing the next - the whole trace is the command
list interleaved with its acks; and for any device behaviour whatsoever
the write/consume part of the dispatcher's trace is a sequence of
write-then-consume pairs, so at most one command is awaiting a reply at
any point. -/
theorem C1_dispatch_order :
    (∀ (cmds : List String) (hr : Nat) (fu : Home.Fuels) (m : Nat) (w : World),
      Home.sender_loop envOk hr fu (m + 1) (cmds.map Home.WorkItem.gcode) w =
        (false, ⟨w.ackIdx + cmds.length, w.stIdx⟩,
          wcPairs (cmds.map fun c => (c, some "ok")))) ∧
    (∀ (ε : Env) (hr : Nat) (fu : Home.Fuels) (lr : Nat) (cmds : List String) (w : World),
      ∃ ps, ((Home.sender_loop ε hr fu lr (cmds.map Home.WorkItem.gcode) w).2.2).filter isWC =
        wcPairs ps) := by
  exact ⟨fun cmds hr fu m w => sender_loop_envOk hr fu m cmds w,
    fun ε hr fu lr cmds w => sender_loop_gcode_wc ε hr fu lr cmds w⟩

/-! Claim C3: which alarm codes are recoverable during homing. -/

theorem wait_state_count_write (ε : Env) (tg : List String) (s : String) :
    ∀ (n : Nat) (w : World), ((Sending.wait_state ε tg n w).2.2).count (Ev.write s) = 0 := by
  intro n
  induction n with
  | zero => intro w; rfl
  | succ m ih =>
    intro w
    by_cases h : ε.states w.stIdx ∈ tg
    · simp [Sending.wait_state, h]
    · simp [Sending.wait_state, h, ih]

theorem hard_clear_count_HZ (ε : Env) (f : Nat) (w : World) :
    ((Sending.hard_clear ε f w).2).count (Ev.write "$HZ") = 0 := by
  have e1 : (Ev.write "$X" == Ev.write "$HZ") = false := by decide
  have e2 : (Ev.write "$20=0" == Ev.write "$HZ") = false := by decide
  have e3 : (Ev.write "G90" == Ev.write "$HZ") = false := by decide
  simp [Sending.hard_clear, List.count_append, List.count_cons, wait_state_count_write,
    e1, e2, e3]

theorem clear_alarm_envAlarm3 (cf ci : Nat) (w : World) :
    Sending.clear_alarm_if_needed envAlarm3 cf ci w =
      (⟨w.ackIdx, w.stIdx + 1⟩, [Ev.readState "Run"]) := by
  simp [Sending.clear_alarm_if_needed, envAlarm3]

theorem homing_step_alarm3_budget :
    ∀ (n attempt : Nat) (fu : Sending.SFuels) (d : Int) (f : Nat) (w : World),
      (Sending.homing_step_go envAlarm3 "$HZ" fu d f n attempt w).1 = false ∧
      ((Sending.homing_step_go envAlarm3 "$HZ" fu d f n attempt w).2.2).count
        (Ev.write "$HZ") = n := by
  intro n
  induction n with
  | zero => intro attempt fu d f w; exact ⟨rfl, rfl⟩
  | succ m ih =>
    intro attempt fu d f w
    have hok3 : pyStartsWith "alarm:3" "ok" = false := by decide
    have hal3 : pyStartsWith "alarm:3" "alarm" = true := by decide
    have hin9 : pyIn "alarm:9" "alarm:3" = false := by decide
    have hin8 : pyIn "alarm:8" "alarm:3" = false := by decide
    have e4 : (Ev.write "$HZ" == Ev.write "$HZ") = true := by decide
    have hacks : ∀ i, envAlarm3.acks i = some "alarm:3" := fun _ => rfl
    have ihb : ∀ (a : Nat) (fu : Sending.SFuels) (d : Int) (f : Nat) (w : World),
        (Sending.homing_step_go envAlarm3 "$HZ" fu d f m a w).1 = false :=
      fun a fu d f w => (ih a fu d f w).1
    have ihc : ∀ (a : Nat) (fu : Sending.SFuels) (d : Int) (f : Nat) (w : World),
        ((Sending.homing_step_go envAlarm3 "$HZ" fu d f m a w).2.2).count
          (Ev.write "$HZ") = m :=
      fun a fu d f w => (ih a fu d f w).2
    constructor
    · simp only [Sending.homing_step_go, clear_alarm_envAlarm3, hacks, hok3, hal3, hin9, hin8]
      simp only [Bool.false_and, Bool.false_eq_true, if_false, Bool.or_self, Bool.and_false]
      simp [ihb]
    · simp only [Sending.homing_step_go, clear_alarm_envAlarm3, hacks, hok3, hal3, hin9, hin8]
      simp only [Bool.false_and, Bool.false_eq_true, if_false, Bool.or_self, Bool.and_false]
      simp [List.count_append, List.count_cons, wait_state_count_write, hard_clear_count_HZ,
        e4, ihc]

/-- C3 (amended): in send_homing_with_retries of home.py and sender.py
exactly the alarm codes 8 and 9 are recoverable - an unstarted alarm or
error reply with any other code ends the homing step at once, its trace
being just the send and its reply wait with no unlock and no retry,
while codes 8 and 9 unlock and retry the same step; but in the cited
homing_step of sending.py a non-recoverable alarm such as alarm 3 is
hard-cleared (unlock included) and the step is retried, the command
being re-sent once per attempt until the whole budget is spent. -/
theorem C3_alarm_codes :
    (∀ (ε : Env) (cmd a : String) (win lf ff n : Nat) (w w' : World) (tw : List Ev),
      Home.homing_wait_start ε none win w = (false, some a, w', tw) →
      Home.isAlarmErr (some a) = true →
      parse_alarm_code a ≠ some 8 → parse_alarm_code a ≠ some 9 →
      Home.send_homing_go ε cmd win lf ff (n + 1) w = (false, w', Ev.write cmd :: tw)) ∧
    (∀ (ε : Env) (cmd a : String) (win lf ff n : Nat) (w w' : World) (tw : List Ev),
      Home.homing_wait_start ε none win w = (false, some a, w', tw) →
      Home.isAlarmErr (some a) = true →
      (parse_alarm_code a = some 8 ∨ parse_alarm_code a = some 9) →
      Home.send_homing_go ε cmd win lf ff (n + 1) w =
        ((Home.send_homing_go ε cmd win lf ff n w').1,
         (Home.send_homing_go ε cmd win lf ff n w').2.1,
         Ev.write cmd :: tw ++ Home.unlockEvs ++
           (Home.send_homing_go ε cmd win lf ff n w').2.2)) ∧
    (∀ (n attempt : Nat) (fu : Sending.SFuels) (d : Int) (f : Nat) (w : World),
      (Sending.homing_step_go envAlarm3 "$HZ" fu d f n attempt w).1 = false ∧
      ((Sending.homing_step_go envAlarm3 "$HZ" fu d f n attempt w).2.2).count
        (Ev.write "$HZ") = n) := by
  refine ⟨fun ε cmd a win lf ff n w w' tw hW hAE h8 h9 => ?_,
    fun ε cmd a win lf ff n w w' tw hW hAE h89 => ?_,
    homing_step_alarm3_budget⟩
  · simp [Home.send_homing_go, hW, hAE, Home.optParseAlarm, h8, h9]
  · simp [Home.send_homing_go, hW, hAE, Home.optParseAlarm, h89]

/-- C3 witness: the immediate failure on alarm 3, the unlock-and-retry
shape on alarm 8, and the budget-consuming retry of sending.py, at
concrete runs. -/
theorem C3_alarm_codes_witness :
    Home.send_homing_go envAlarm3 "$HZ" 1 1 1 3 ⟨0, 0⟩ =
      (false, ⟨1, 0⟩, [Ev.write "$HZ", Ev.consume (some "alarm:3")]) ∧
    Home.send_homing_go envAlarm8 "$HZ" 1 1 1 1 ⟨0, 0⟩ =
      ((Home.send_homing_go envAlarm8 "$HZ" 1 1 1 0 ⟨1, 0⟩).1,
       (Home.send_homing_go envAlarm8 "$HZ" 1 1 1 0 ⟨1, 0⟩).2.1,
       Ev.write "$HZ" :: [Ev.consume (some "alarm:8")] ++ Home.unlockEvs ++
         (Home.send_homing_go envAlarm8 "$HZ" 1 1 1 0 ⟨1, 0⟩).2.2) ∧
    (Sending.homing_step_go envAlarm3 "$HZ" ⟨1, 1, 1, 1⟩ 1 1000 2 1 ⟨0, 0⟩).1 = false := by
  refine ⟨?_, ?_, ?_⟩
  · exact C3_alarm_codes.1 envAlarm3 "$HZ" "alarm:3" 1 1 1 2 ⟨0, 0⟩ ⟨1, 0⟩
      [Ev.consume (some "alarm:3")] (by decide) (by decide) (by decide) (by decide)
  · exact C3_alarm_codes.2.1 envAlarm8 "$HZ" "alarm:8" 1 1 1 0 ⟨0, 0⟩ ⟨1, 0⟩
      [Ev.consume (some "alarm:8")] (by decide) (by decide) (by decide)
  · exact (C3_alarm_codes.2.2 2 1 ⟨1, 1, 1, 1⟩ 1 1000 ⟨0, 0⟩).1

/-- C3 counterexample: in the cited homing_step of sending.py a step
receiving alarm 3 - a non-recoverable code - does not fail immediately
and does invoke unlock: with two attempts the command is sent twice and
the unlock command is written twice before the step finally fails. -/
theorem C3_counterexample :
    (Sending.homing_step envAlarm3 "$HZ" 2 ⟨1, 1, 1, 1⟩ 1 1000 ⟨0, 0⟩).1 = false ∧
    ((Sending.homing_step envAlarm3 "$HZ" 2 ⟨1, 1, 1, 1⟩ 1 1000 ⟨0, 0⟩).2.2).count
      (Ev.write "$X") = 2 ∧
    ((Sending.homing_step envAlarm3 "$HZ" 2 ⟨1, 1, 1, 1⟩ 1 1000 ⟨0, 0⟩).2.2).count
      (Ev.write "$HZ") = 2 := by
  refine ⟨by decide, by decide, by decide⟩

/-! Claim C7: the stream markers and comment skipping of stream_file. -/

theorem ws_marks (ε : Env) (tg : List String) :
    ∀ (n : Nat) (w : World), ((Sending.wait_state ε tg n w).2.2).filter isMarkEv = [] := by
  intro n
  induction n with
  | zero => intro w; rfl
  | succ m ih =>
    intro w
    by_cases h : ε.states w.stIdx ∈ tg
    · simp [Sending.wait_state, h, isMarkEv]
    · simp [Sending.wait_state, h, isMarkEv, ih]

theorem hc_marks (ε : Env) (f : Nat) (w : World) :
    ((Sending.hard_clear ε f w).2).filter isMarkEv = [] := by
  simp [Sending.hard_clear, List.filter_append, ws_marks, isMarkEv]

theorem cai_marks (ε : Env) (cf ci : Nat) (w : World) :
    ((Sending.clear_alarm_if_needed ε cf ci w).2).filter isMarkEv = [] := by
  by_cases h : ε.states w.stIdx = "Alarm"
  · simp [Sending.clear_alarm_if_needed, h, List.filter_append, hc_marks, ws_marks, isMarkEv]
  · simp [Sending.clear_alarm_if_needed, h, isMarkEv]

theorem la_marks (ε : Env) (fu : Sending.SFuels) (line : String) :
    ∀ (n : Nat) (w : World), ((Sending.line_attempts ε fu line n w).2.2).filter isMarkEv = [] := by
  intro n
  induction n with
  | zero => intro w; rfl
  | succ m ih =>
    intro w
    cases hA : ε.acks (Sending.clear_alarm_if_needed ε fu.clearFuel fu.clearIdle w).1.ackIdx with
    | none =>
      simp [Sending.line_attempts, hA, List.filter_append, cai_marks, isMarkEv]
    | some s =>
      by_cases hok : pyStartsWith s "ok" = true
      · simp [Sending.line_attempts, hA, hok, List.filter_append, cai_marks, isMarkEv]
      · by_cases hal : pyStartsWith s "alarm" = true
        · by_cases hz : m = 0
          · simp [Sending.line_attempts, hA, hok, hal, hz, List.filter_append, cai_marks,
              hc_marks, isMarkEv]
          · simp [Sending.line_attempts, hA, hok, hal, hz, List.filter_append, cai_marks,
              hc_marks, isMarkEv, ih]
        · simp [Sending.line_attempts, hA, hok, hal, List.filter_append, cai_marks, isMarkEv]

theorem sl_marks (ε : Env) (fu : Sending.SFuels) (lr : Nat) :
    ∀ (lines : List String) (w : World),
      ((Sending.stream_lines ε fu lr lines w).2.2).filter isMarkEv = [] := by
  intro lines
  induction lines with
  | nil => intro w; rfl
  | cons l ls ih =>
    intro w
    by_cases hs : Sending.skipLine l = true
    · simp [Sending.stream_lines, hs, ih]
    · by_cases hla : (Sending.line_attempts ε fu (pyStrip l) (lr + 1) w).1 = true
      · simp [Sending.stream_lines, hs, hla, List.filter_append, la_marks, ih]
      · simp [Sending.stream_lines, hs, hla, la_marks]

theorem preview_marks (lines : List String) :
    (Sending.preview lines).filter isMarkEv = [] := by
  cases h : lines.find? (fun l => !Sending.skipLine l) with
  | none => simp [Sending.preview, h]
  | some l => simp [Sending.preview, h, isMarkEv]

theorem stream_lines_skip (ε : Env) (fu : Sending.SFuels) (lr : Nat) :
    ∀ (lines : List String) (w : World), (∀ l ∈ lines, Sending.skipLine l = true) →
      Sending.stream_lines ε fu lr lines w = (true, w, []) := by
  intro lines
  induction lines with
  | nil => intro w _; rfl
  | cons l ls ih =>
    intro w hskip
    have hl : Sending.skipLine l = true := hskip l (by simp)
    have hrest : ∀ x ∈ ls, Sending.skipLine x = true := fun x hx => hskip x (by simp [hx])
    simp [Sending.stream_lines, hl, ih w hrest]

theorem find_skip (lines : List String) (hskip : ∀ l ∈ lines, Sending.skipLine l = true) :
    lines.find? (fun l => !Sending.skipLine l) = none := by
  rw [List.find?_eq_none]
  intro x hx
  simp [hskip x hx]

/-- C7 (amended): stream_file emits the start marker exactly once
whatever the outcome, and emits the end marker exactly once on success
and not at all when streaming aborts; and a file whose every line is
blank or a comment dispatches nothing - its whole run is identical to
streaming the empty file - and reports success. -/
theorem C7_stream_markers (ε : Env) (fu : Sending.SFuels) (lines : List String)
    (lr pre : Nat) (w : World) :
    (((Sending.stream_file ε fu lines lr pre w).2.2).filter isMarkEv =
      if (Sending.stream_file ε fu lines lr pre w).1 then
        [Ev.mark "START STREAM", Ev.mark "END STREAM"] else [Ev.mark "START STREAM"]) ∧
    ((∀ l ∈ lines, Sending.skipLine l = true) →
      Sending.stream_file ε fu lines lr pre w = Sending.stream_file ε fu [] lr pre w ∧
      (Sending.stream_file ε fu [] lr pre w).1 = true) := by
  constructor
  · by_cases hb : (Sending.stream_lines ε fu lr lines
        ((Sending.wait_state ε [ "Idle"] pre
          ((Sending.clear_alarm_if_needed ε fu.clearFuel fu.clearIdle w).1)).2.1)).1 = true
    · simp [Sending.stream_file, hb, List.filter_append, cai_marks, ws_marks, sl_marks,
        preview_marks, isMarkEv]
    · simp [Sending.stream_file, hb, List.filter_append, cai_marks, ws_marks, sl_marks,
        preview_marks, isMarkEv]
  · intro hskip
    have hsl : ∀ w' : World, Sending.stream_lines ε fu lr lines w' = (true, w', []) :=
      fun w' => stream_lines_skip ε fu lr lines w' hskip
    constructor
    · simp [Sending.stream_file, hsl, Sending.stream_lines, Sending.preview,
        find_skip lines hskip]
    · simp [Sending.stream_file, Sending.stream_lines]

/-- C7 witness: a concrete comment-only file streams exactly like the
empty file and succeeds. -/
theorem C7_stream_markers_witness :
    Sending.stream_file envOk ⟨1, 1, 1, 1⟩ [ "; header", "", "(note)"] 0 1 ⟨0, 0⟩ =
      Sending.stream_file envOk ⟨1, 1, 1, 1⟩ [] 0 1 ⟨0, 0⟩ ∧
    (Sending.stream_file envOk ⟨1, 1, 1, 1⟩ [] 0 1 ⟨0, 0⟩).1 = true := by
  exact (C7_stream_markers envOk ⟨1, 1, 1, 1⟩ [ "; header", "", "(note)"] 0 1 ⟨0, 0⟩).2
    (by decide)

/-- C7 counterexample: when streaming aborts on persistent alarms the
start marker is emitted but the end marker is not - the code prints the
end marker only on the success path, against the claim that both
markers appear regardless of outcome. -/
theorem C7_counterexample :
    (Sending.stream_file envAlarm3 ⟨1, 1, 1, 1⟩ [ "G1 X10"] 0 1 ⟨0, 0⟩).1 = false ∧
    ((Sending.stream_file envAlarm3 ⟨1, 1, 1, 1⟩ [ "G1 X10"] 0 1 ⟨0, 0⟩).2.2).count
      (Ev.mark "START STREAM") = 1 ∧
    ((Sending.stream_file envAlarm3 ⟨1, 1, 1, 1⟩ [ "G1 X10"] 0 1 ⟨0, 0⟩).2.2).count
      (Ev.mark "END STREAM") = 0 := by
  refine ⟨by decide, by decide, by decide⟩

/-! Claim C8: a fatal homing failure raises the stop flag and discards
all remaining queued work. -/

/-- C8: when the homing macro fails, the dispatcher loop sets the stop
flag and returns at once - its whole behaviour (result, cursor and
trace) is identical whatever work items are still queued behind the home
item, so no queued command is ever written to the link afterwards. -/
theorem C8_abort_discards (ε : Env) (hr : Nat) (fu : Home.Fuels) (lr : Nat)
    (post : List Home.WorkItem) (w : World)
    (h : (Home.perform_home_sequence ε hr fu w).1 = false) :
    Home.sender_loop ε hr fu lr (Home.WorkItem.home :: post) w =
      Home.sender_loop ε hr fu lr [Home.WorkItem.home] w ∧
    (Home.sender_loop ε hr fu lr (Home.WorkItem.home :: post) w).1 = true := by
  constructor
  · simp [Home.sender_loop, h]
  · simp [Home.sender_loop, h]

/-- C8 witness: a first homing step failing with the fatal alarm 3
aborts the session; a queued command behind the macro changes nothing
and the stop flag is raised. -/
theorem C8_abort_discards_witness :
    Home.sender_loop envAlarm3 1 ⟨1, 1, 1⟩ 1
        [Home.WorkItem.home, Home.WorkItem.gcode "g0 x1"] ⟨0, 0⟩ =
      Home.sender_loop envAlarm3 1 ⟨1, 1, 1⟩ 1 [Home.WorkItem.home] ⟨0, 0⟩ ∧
    (Home.sender_loop envAlarm3 1 ⟨1, 1, 1⟩ 1
        [Home.WorkItem.home, Home.WorkItem.gcode "g0 x1"] ⟨0, 0⟩).1 = true := by
  exact C8_abort_discards envAlarm3 1 ⟨1, 1, 1⟩ 1 [Home.WorkItem.gcode "g0 x1"] ⟨0, 0⟩
    (by decide)
